import Mathlib

/-!
# Verification of the Ambulance Emergency Management core

Shallow embedding of the triage classification engine (the static decision
forest `triageData` and the React handlers of `frontend/index.tsx`) and of the
hospital proximity search, with proofs of the specified properties.
-/

set_option linter.unusedVariables false

/-- A position in a scenario's decision tree, mirroring the literal JSON in
`frontend/index.tsx`: every option value is either `{ "level": n }` (a
terminal outcome, embedded as `leaf n`) or
`{ "next": { "question": q, "options": [...] } }` (a further question,
embedded as `node q opts`).  Option order follows the literal's key order. -/
inductive QTree : Type where
  | leaf : Nat → QTree
  | node : String → List (String × QTree) → QTree

mutual
/-- Well-formedness of a tree: every terminal level lies in 1..4 and every
question offers at least one option. -/
def QTree.wfB : QTree → Bool
  | .leaf n => decide (1 ≤ n) && decide (n ≤ 4)
  | .node _ opts => (!opts.isEmpty) && wfListB opts
/-- Companion of `QTree.wfB` on an option list. -/
def wfListB : List (String × QTree) → Bool
  | [] => true
  | (_, t) :: rest => QTree.wfB t && wfListB rest
end

mutual
/-- Depth of a tree: the number of questions along the longest path. -/
def QTree.depth : QTree → Nat
  | .leaf _ => 0
  | .node _ opts => 1 + depthList opts
/-- Companion of `QTree.depth`: maximum depth over an option list. -/
def depthList : List (String × QTree) → Nat
  | [] => 0
  | (_, t) :: rest => max (QTree.depth t) (depthList rest)
end

/-- String-keyed lookup in an association list, mirroring the JavaScript
property access `obj[key]` that yields `undefined` (here `none`) for a
missing key. -/
def lookupStr {α : Type} (l : List (String × α)) (key : String) : Option α :=
  (l.find? (fun p => p.1 == key)).map (fun p => p.2)

/-- Traversal of a tree driven by a sequence of choices, one option chosen
per node: at each question the choice `c` selects option `c % opts.length`
(so every option of every node is reachable by some choice sequence, and
every valid answer corresponds to some choice).  Returns the terminal level
when a leaf is reached, `none` when the choices run out before a leaf (or a
node has no options). -/
def runChoice : QTree → List Nat → Option Nat
  | .leaf n, _ => some n
  | .node _ _, [] => none
  | .node _ opts, c :: cs =>
    match opts[c % opts.length]? with
    | some p => runChoice p.2 cs
    | none => none

/-- Scenario `1_Fainted_Unconscious` of `triageData` (`frontend/index.tsx`). -/
def fainted : QTree :=
  .node "Is patient awake?" [
    ("Yes", .leaf 1),
    ("No", .node "Is patient breathing?" [
      ("Yes", .node "How long unconscious?" [
        ("< 2 minutes", .leaf 2),
        ("2-5 minutes", .leaf 2),
        ("> 5 minutes", .leaf 3)]),
      ("No", .leaf 4)])]

/-- Scenario `2_ChestPain_Breathing` of `triageData`. -/
def chestPain : QTree :=
  .node "Was pain sudden or severe?" [
    ("No", .leaf 2),
    ("Yes", .node "Sweating or vomiting?" [
      ("No", .leaf 2),
      ("Yes", .leaf 3)])]

/-- Scenario `3_Accident` of `triageData`. -/
def accident : QTree :=
  .node "How many people injured?" [
    ("One", .node "Is person awake?" [
      ("Yes", .node "Any major bleeding/fracture?" [
        ("No", .leaf 1),
        ("Yes", .leaf 2)]),
      ("No", .leaf 3)]),
    ("Multiple", .leaf 3),
    ("Deaths", .leaf 4)]

/-- Scenario `4_Injury_Fall` of `triageData`. -/
def injuryFall : QTree :=
  .node "Is patient conscious?" [
    ("Yes", .node "Bleeding or fracture?" [
      ("No", .leaf 1),
      ("Yes", .leaf 2)]),
    ("No", .leaf 3)]

/-- Scenario `5_Sickness` of `triageData`. -/
def sickness : QTree :=
  .node "What is the illness?" [
    ("Mild symptoms (fever, cold)", .leaf 1),
    ("Severe symptoms (chest pain, high fever)", .leaf 2)]

/-- Scenario `6_Pregnancy` of `triageData`. -/
def pregnancy : QTree :=
  .node "Contraction pain?" [
    ("No", .leaf 1),
    ("Yes", .node "Bleeding or water broken?" [
      ("No", .leaf 2),
      ("Water broken", .leaf 2),
      ("Bleeding", .leaf 3)])]

/-- Scenario `7_Poisoning_Bite` of `triageData`. -/
def poisoningBite : QTree :=
  .node "Is patient conscious?" [
    ("Yes", .node "Swelling or breathing issues?" [
      ("No", .leaf 2),
      ("Yes", .leaf 3)]),
    ("No", .leaf 4)]

/-- Scenario `8_Fire` of `triageData`. -/
def fire : QTree :=
  .node "How large is the fire?" [
    ("Small, no injuries", .leaf 1),
    ("Medium, injuries possible", .leaf 2),
    ("Large, people trapped", .leaf 4)]

/-- The static forest `triageData.questions` of `frontend/index.tsx`: the
eight scenarios keyed by their literal identifiers, in declaration order. -/
def triageData : List (String × QTree) := [
  ("1_Fainted_Unconscious", fainted),
  ("2_ChestPain_Breathing", chestPain),
  ("3_Accident", accident),
  ("4_Injury_Fall", injuryFall),
  ("5_Sickness", sickness),
  ("6_Pregnancy", pregnancy),
  ("7_Poisoning_Bite", poisoningBite),
  ("8_Fire", fire)]

/-- An entry of a well-formed option list is itself well-formed. -/
theorem wfListB_mem {l : List (String × QTree)} {p : String × QTree}
    (hl : wfListB l = true) (hp : p ∈ l) : QTree.wfB p.2 = true := by
  induction l with
  | nil => cases hp
  | cons q rest ih =>
    obtain ⟨s, t⟩ := q
    rw [wfListB, Bool.and_eq_true] at hl
    cases hp with
    | head => exact hl.1
    | tail _ hp => exact ih hl.2 hp

/-- An entry of an option list is no deeper than the list's depth bound. -/
theorem depthList_mem {l : List (String × QTree)} {p : String × QTree}
    (hp : p ∈ l) : QTree.depth p.2 ≤ depthList l := by
  induction l with
  | nil => cases hp
  | cons q rest ih =>
    obtain ⟨s, t⟩ := q
    rw [depthList]
    cases hp with
    | head => exact Nat.le_max_left _ _
    | tail _ hp => exact Nat.le_trans (ih hp) (Nat.le_max_right _ _)

/-- Core termination lemma: on a well-formed tree, any choice sequence at
least as long as the tree's depth drives `runChoice` to a terminal level in
1..4. -/
theorem runChoice_total (cs : List Nat) : ∀ t : QTree, QTree.wfB t = true →
    QTree.depth t ≤ cs.length → ∃ n, runChoice t cs = some n ∧ 1 ≤ n ∧ n ≤ 4 := by
  induction cs with
  | nil =>
    intro t hwf hd
    cases t with
    | leaf n =>
      rw [QTree.wfB, Bool.and_eq_true, decide_eq_true_eq, decide_eq_true_eq] at hwf
      exact ⟨n, rfl, hwf.1, hwf.2⟩
    | node q opts =>
      rw [QTree.depth, List.length_nil] at hd
      omega
  | cons c cs ih =>
    intro t hwf hd
    cases t with
    | leaf n =>
      rw [QTree.wfB, Bool.and_eq_true, decide_eq_true_eq, decide_eq_true_eq] at hwf
      exact ⟨n, rfl, hwf.1, hwf.2⟩
    | node q opts =>
      rw [QTree.wfB, Bool.and_eq_true, Bool.not_eq_true', List.isEmpty_eq_false] at hwf
      have hpos : 0 < opts.length := List.length_pos.mpr hwf.1
      have hidx : c % opts.length < opts.length := Nat.mod_lt _ hpos
      have hget : opts[c % opts.length]? = some (opts[c % opts.length]) :=
        List.getElem?_eq_getElem hidx
      have hmem : opts[c % opts.length] ∈ opts := List.getElem_mem hidx
      have hwf2 : QTree.wfB (opts[c % opts.length]).2 = true :=
        wfListB_mem hwf.2 hmem
      have hdep : QTree.depth (opts[c % opts.length]).2 ≤ depthList opts :=
        depthList_mem hmem
      rw [QTree.depth, List.length_cons] at hd
      obtain ⟨n, hrun, h1, h4⟩ := ih _ hwf2 (by omega)
      refine ⟨n, ?_, h1, h4⟩
      rw [runChoice, hget]
      exact hrun

/-- C1: for every scenario in the static triage decision forest, every
traversal path — one option chosen per node — terminates within
`QTree.depth` steps at a terminal outcome whose level lies in {1,2,3,4}; no
traversal loops forever and no leaf lacks a level. -/
theorem triage_forest_traversals_terminate (key : String) (t : QTree)
    (hmem : (key, t) ∈ triageData) (cs : List Nat)
    (hlen : QTree.depth t ≤ cs.length) :
    ∃ n, runChoice t cs = some n ∧ 1 ≤ n ∧ n ≤ 4 :=
  runChoice_total cs t (wfListB_mem (by decide) hmem) hlen

/-- Witness for C1: the `1_Fainted_Unconscious` scenario, driven by the
choice sequence [1, 0, 2] (depth 3), terminates at a level in 1..4. -/
theorem triage_forest_traversals_terminate_witness :
    ∃ n, runChoice fainted [1, 0, 2] = some n ∧ 1 ≤ n ∧ n ≤ 4 :=
  triage_forest_traversals_terminate "1_Fainted_Unconscious" fainted
    (List.Mem.head _) [1, 0, 2] (by decide)

/-- Fetch status of the automatic caller-data lookup
(`dataFetchStatus` in `frontend/index.tsx`). -/
inductive FetchStatus : Type where
  | loading : FetchStatus
  | success : FetchStatus
  | failed : FetchStatus
deriving DecidableEq

/-- The React component state of `App` in `frontend/index.tsx`: the triage
state (scenario name, current question, answer history, assigned level,
explanation, loading flag) together with the caller information fields and
the data-fetch status.  `history` entries are `(question, answer)` pairs. -/
structure AppState : Type where
  currentScenario : Option String
  currentQuestion : Option QTree
  history : List (String × String)
  level : Option Nat
  explanation : String
  isLoading : Bool
  mobileNumber : String
  latitude : String
  longitude : String
  dataFetchStatus : FetchStatus

/-- `formatScenarioName` of `frontend/index.tsx`:
`key.split('_').slice(1).join(' / ')`. -/
def formatScenarioName (key : String) : String :=
  String.intercalate " / " ((key.splitOn "_").drop 1)

/-- `handleScenarioSelect` of `frontend/index.tsx`: looks the key up in
`triageData.questions` (an unknown key yields `undefined`, here `none`, and
is still stored without any error), sets the formatted scenario name, and
clears history, level and explanation. -/
def handleScenarioSelect (s : AppState) (scenarioKey : String) : AppState :=
  let scenarioData := lookupStr triageData scenarioKey
  { s with
    currentScenario := some (formatScenarioName scenarioKey)
    currentQuestion := scenarioData
    history := []
    level := none
    explanation := "" }

/-- The question text of a tree position (`currentQuestion.question`); a
terminal position carries no question. -/
def QTree.questionText : QTree → String
  | .leaf _ => ""
  | .node q _ => q

/-- The option list of a tree position (`currentQuestion.options`); a
terminal position offers none. -/
def QTree.optionList : QTree → List (String × QTree)
  | .leaf _ => []
  | .node _ opts => opts

/-- Result of one `handleOptionSelect` step: either an updated state, or the
unhandled JavaScript `TypeError` thrown by `result.next` when
`currentQuestion.options[option]` was `undefined` (no such key). -/
inductive StepResult : Type where
  | ok : AppState → StepResult
  | typeErrorCrash : StepResult

/-- `handleOptionSelect` of `frontend/index.tsx`: guard on a current
question/scenario, append the answer to the history, then look the option up
in `currentQuestion.options`.  A `next` outcome becomes the new current
question; a `level` outcome assigns the level and builds the local
explanation from the final answer; a missing key leaves `result` undefined
and the access `result.next` throws an unhandled `TypeError`. -/
def handleOptionSelect (s : AppState) (option : String) : StepResult :=
  match s.currentQuestion, s.currentScenario with
  | some t, some _ =>
    let newHistory := s.history ++ [(t.questionText, option)]
    match lookupStr t.optionList option with
    | none => .typeErrorCrash
    | some (QTree.node q opts) =>
      .ok { s with
            history := newHistory
            currentQuestion := some (QTree.node q opts) }
    | some (QTree.leaf n) =>
      .ok { s with
            history := newHistory
            level := some n
            explanation := "Severity level " ++ toString n ++
              " was assigned based on the answer: \"" ++ option ++ "\"." }
  | _, _ => .ok s

/-- `handleManualOverride` of `frontend/index.tsx`: sets the level to the
caller-chosen value (no validation of any kind is performed on it), sets the
scenario name to the override message and the explanation text; the current
question and the history are untouched. -/
def handleManualOverride (s : AppState) (overrideLevel : Nat) : AppState :=
  { s with
    level := some overrideLevel
    currentScenario := some ("Manual Override to Level " ++ toString overrideLevel)
    explanation := "The operator has manually set the emergency severity level to "
      ++ toString overrideLevel ++ "." }

/-- `resetTriage` of `frontend/index.tsx`: clears the triage state and
deliberately leaves the caller information untouched. -/
def resetTriage (s : AppState) : AppState :=
  { s with
    currentScenario := none
    currentQuestion := none
    history := []
    level := none
    explanation := ""
    isLoading := false }

/-- The initial component state of `App` (the `useState` initializers of
`frontend/index.tsx`). -/
def initialAppState : AppState :=
  { currentScenario := none
    currentQuestion := none
    history := []
    level := none
    explanation := ""
    isLoading := false
    mobileNumber := ""
    latitude := ""
    longitude := ""
    dataFetchStatus := .loading }

/-- C3 (amended): for every decision node and every answer label, if the
label is not a key of the node's options mapping the handler throws the
unhandled JavaScript `TypeError` of reading `.next` on `undefined` — there
is no structured `InvalidAnswer` error in the code; if the label is a key,
the handler proceeds with that option's outcome (the next question is
stored, or the level is assigned) and records the answer in the history. -/
theorem handleOptionSelect_unknown_label_crashes (s : AppState) (t : QTree) (a : String)
    (hq : s.currentQuestion = some t) (hs : s.currentScenario.isSome = true) :
    (lookupStr t.optionList a = none → handleOptionSelect s a = .typeErrorCrash) ∧
    (∀ q opts, lookupStr t.optionList a = some (QTree.node q opts) →
      ∃ s2, handleOptionSelect s a = .ok s2 ∧
        s2.currentQuestion = some (QTree.node q opts) ∧
        s2.history = s.history ++ [(t.questionText, a)]) ∧
    (∀ n, lookupStr t.optionList a = some (QTree.leaf n) →
      ∃ s2, handleOptionSelect s a = .ok s2 ∧ s2.level = some n ∧
        s2.history = s.history ++ [(t.questionText, a)]) := by
  obtain ⟨sc, hsc⟩ := Option.isSome_iff_exists.mp hs
  refine ⟨?_, ?_, ?_⟩
  · intro h
    simp only [handleOptionSelect, hq, hsc, h]
  · intro q opts h
    refine ⟨{ s with
        history := s.history ++ [(t.questionText, a)],
        currentQuestion := some (QTree.node q opts) }, ?_, rfl, rfl⟩
    simp only [handleOptionSelect, hq, hsc, h]
  · intro n h
    refine ⟨{ s with
        history := s.history ++ [(t.questionText, a)],
        level := some n,
        explanation := "Severity level " ++ toString n ++
          " was assigned based on the answer: \"" ++ a ++ "\"." }, ?_, rfl, rfl⟩
    simp only [handleOptionSelect, hq, hsc, h]

/-- Witness for C3 (amended): answering "Yes" at the root of the
Fainted/Unconscious scenario (a valid key) succeeds and assigns level 1. -/
theorem handleOptionSelect_unknown_label_crashes_witness :
    ∃ s2, handleOptionSelect (handleScenarioSelect initialAppState
      "1_Fainted_Unconscious") "Yes" = .ok s2 ∧ s2.level = some 1 ∧
      s2.history = (handleScenarioSelect initialAppState
        "1_Fainted_Unconscious").history ++ [(QTree.questionText fainted, "Yes")] :=
  (handleOptionSelect_unknown_label_crashes
    (handleScenarioSelect initialAppState "1_Fainted_Unconscious")
    fainted "Yes" rfl rfl).2.2 1 rfl

/-- C3 counterexample: answering "Maybe" — not a key — at the root of the
Fainted/Unconscious scenario makes the handler crash with the unhandled
`TypeError`, not a structured `InvalidAnswer` error. -/
theorem handleOptionSelect_unknown_label_cex :
    handleOptionSelect (handleScenarioSelect initialAppState
      "1_Fainted_Unconscious") "Maybe" = .typeErrorCrash := rfl

/-- C4 counterexample: a manual override to level 7 — outside 1..4 — is not
rejected with an `InvalidLevel` error: the handler completes normally and
assigns level 7. -/
theorem handleManualOverride_out_of_range_cex :
    (handleManualOverride initialAppState 7).level = some 7 ∧
    (handleManualOverride initialAppState 7).currentScenario =
      some "Manual Override to Level 7" := ⟨rfl, rfl⟩

/-- C4 (amended): the manual-override operation immediately assigns the
caller-chosen level as the terminal result without invoking scenario
selection or any tree traversal (the current question and the answer history
are untouched) — for every n, including n outside 1..4, which the code does
not validate or reject with `InvalidLevel`. -/
theorem handleManualOverride_assigns_any_level (s : AppState) (n : Nat) :
    (handleManualOverride s n).level = some n ∧
    (handleManualOverride s n).currentQuestion = s.currentQuestion ∧
    (handleManualOverride s n).history = s.history ∧
    (handleManualOverride s n).currentScenario =
      some ("Manual Override to Level " ++ toString n) :=
  ⟨rfl, rfl, rfl, rfl⟩

/-- C7 counterexample: selecting the unknown scenario identifier
"0_Missing" does not fail with an `UnknownScenario` error: the handler
completes, storing `none` (the `undefined` lookup result) as the current
question while still setting a formatted scenario name. -/
theorem handleScenarioSelect_unknown_id_cex :
    (handleScenarioSelect initialAppState "0_Missing").currentQuestion = none ∧
    (handleScenarioSelect initialAppState "0_Missing").currentScenario =
      some (formatScenarioName "0_Missing") := ⟨rfl, rfl⟩

/-- C7 (amended): scenario selection never fails: an identifier outside the
fixed scenario set yields a state whose current question is `none` (the
`undefined` lookup result stored without any `UnknownScenario` error), and
an identifier in the set yields that scenario's root decision node. -/
theorem handleScenarioSelect_lookup_behavior (s : AppState) (key : String) :
    (lookupStr triageData key = none →
      (handleScenarioSelect s key).currentQuestion = none) ∧
    (∀ t, lookupStr triageData key = some t →
      (handleScenarioSelect s key).currentQuestion = some t) := by
  constructor
  · intro h
    simp only [handleScenarioSelect, h]
  · intro t h
    simp only [handleScenarioSelect, h]

/-- Witness for C7 (amended): the known identifier `5_Sickness` yields the
`sickness` root node. -/
theorem handleScenarioSelect_lookup_behavior_witness :
    (handleScenarioSelect initialAppState "5_Sickness").currentQuestion =
      some sickness :=
  (handleScenarioSelect_lookup_behavior initialAppState "5_Sickness").2 sickness rfl

/-- C8: in the Fainted/Unconscious scenario, answering "No" to the root
question "Is patient awake?" leads to the question "Is patient breathing?",
and answering "No" to that question assigns terminal level 4. -/
theorem fainted_no_no_gives_level4 :
    ∃ s1 s2,
      handleOptionSelect (handleScenarioSelect initialAppState
        "1_Fainted_Unconscious") "No" = .ok s1 ∧
      s1.currentQuestion.map QTree.questionText = some "Is patient breathing?" ∧
      handleOptionSelect s1 "No" = .ok s2 ∧ s2.level = some 4 := by
  refine ⟨_, _, rfl, rfl, rfl, rfl⟩

/-- C10: resetting the triage flow clears only the triage state — scenario,
current question, history, level, explanation, loading flag — and leaves the
caller information fields and the data-fetch status unchanged, for every
state in which it is invoked. -/
theorem resetTriage_clears_only_triage_state (s : AppState) :
    (resetTriage s).currentScenario = none ∧
    (resetTriage s).currentQuestion = none ∧
    (resetTriage s).history = [] ∧
    (resetTriage s).level = none ∧
    (resetTriage s).explanation = "" ∧
    (resetTriage s).isLoading = false ∧
    (resetTriage s).mobileNumber = s.mobileNumber ∧
    (resetTriage s).latitude = s.latitude ∧
    (resetTriage s).longitude = s.longitude ∧
    (resetTriage s).dataFetchStatus = s.dataFetchStatus :=
  ⟨rfl, rfl, rfl, rfl, rfl, rfl, rfl, rfl, rfl, rfl⟩

/-- Modelled from the spec: the backend hospital search implementation
(MediMapRedo `/api/hospitals/search`) is not part of the sources; its record
type is §3's HospitalRecord — `id`, `name`, `level` 1..4, coordinates
(rationals stand in for the floats), and the optional descriptive fields are
omitted as they play no role in the search logic. -/
structure Hospital : Type where
  id : Nat
  name : String
  level : Nat
  latitude : ℚ
  longitude : ℚ
deriving DecidableEq

/-- Modelled from the spec: §3's SearchQuery — an origin coordinate and the
set of acceptable hospital levels. -/
structure SearchQuery : Type where
  origin : ℚ × ℚ
  allowedLevels : List Nat
deriving DecidableEq

/-- Modelled from the spec: the result ordering of §4.2 step 3 — ascending
by distance, ties broken by hospital `id` ascending for determinism. -/
def resultLE (a b : Hospital × ℚ) : Prop :=
  a.2 < b.2 ∨ (a.2 = b.2 ∧ a.1.id ≤ b.1.id)

instance : DecidableRel resultLE := fun a b => by
  unfold resultLE
  infer_instance

instance : IsTotal (Hospital × ℚ) resultLE :=
  ⟨fun a b => by
    unfold resultLE
    rcases lt_trichotomy a.2 b.2 with h | h | h
    · exact Or.inl (Or.inl h)
    · rcases Nat.le_total a.1.id b.1.id with hid | hid
      · exact Or.inl (Or.inr ⟨h, hid⟩)
      · exact Or.inr (Or.inr ⟨h.symm, hid⟩)
    · exact Or.inr (Or.inl h)⟩

instance : IsTrans (Hospital × ℚ) resultLE :=
  ⟨fun a b c hab hbc => by
    unfold resultLE at hab hbc ⊢
    rcases hab with h1 | ⟨h1, h1'⟩ <;> rcases hbc with h2 | ⟨h2, h2'⟩
    · exact Or.inl (h1.trans h2)
    · exact Or.inl (lt_of_lt_of_eq h1 h2)
    · exact Or.inl (lt_of_eq_of_lt h1 h2)
    · exact Or.inr ⟨h1.trans h2, h1'.trans h2'⟩⟩

/-- Modelled from the spec: the pure hospital search of §4.2 (the backend
implementation is absent from the sources) — filter the directory to records
whose level is allowed, attach the distance from the query origin to each
survivor, sort ascending by (distance, id), truncate to `topN`.  The
distance function is a parameter: the spec's haversine is transcendental
(see `haversineWith`), and no property below depends on its values. -/
def search (dist : ℚ × ℚ → ℚ × ℚ → ℚ) (directory : List Hospital)
    (q : SearchQuery) (topN : Nat) : List (Hospital × ℚ) :=
  ((((directory.filter (fun h => h.level ∈ q.allowedLevels)).map
    (fun h => (h, dist q.origin (h.latitude, h.longitude)))).insertionSort
    resultLE).take topN)

/-- The client-side level choice of `findNearestHospitals`
(`src/README.md`): `hospital_level = [1, 2, 3, 4]` by default, narrowed to
`[chosen]` when the operator picked a specific level. -/
def chooseHospitalLevels : Option Nat → List Nat
  | none => [1, 2, 3, 4]
  | some chosen => [chosen]

/-- C2: for every distance function, directory, query and truncation bound,
the search result is pairwise ordered ascending by distance, and whenever
two entries have equal distance their relative order is ascending by
hospital id. -/
theorem search_sorted_by_distance_then_id (dist : ℚ × ℚ → ℚ × ℚ → ℚ)
    (directory : List Hospital) (q : SearchQuery) (topN : Nat) :
    (search dist directory q topN).Pairwise
      (fun a b => a.2 ≤ b.2 ∧ (a.2 = b.2 → a.1.id ≤ b.1.id)) := by
  have hs : ((((directory.filter (fun h => h.level ∈ q.allowedLevels)).map
      (fun h => (h, dist q.origin (h.latitude, h.longitude)))).insertionSort
      resultLE)).Pairwise resultLE :=
    List.sorted_insertionSort resultLE _
  have ht := List.Pairwise.sublist (List.take_sublist topN _) hs
  rw [search]
  refine ht.imp ?_
  intro a b hab
  rcases hab with h | ⟨heq, hid⟩
  · exact ⟨le_of_lt h, fun he => absurd h (by rw [he]; exact lt_irrefl _)⟩
  · exact ⟨le_of_eq heq, fun _ => hid⟩

/-- C5: for every distance function, directory and query, every record in
the search result has a level in the query's allowed set; with a single
allowed level L only level-L records are returned; and the client-side
default when no level is chosen is [1, 2, 3, 4], meaning any level. -/
theorem search_filters_by_allowed_levels (dist : ℚ × ℚ → ℚ × ℚ → ℚ)
    (directory : List Hospital) (origin : ℚ × ℚ) (levels : List Nat)
    (topN : Nat) (L : Nat) :
    (∀ r ∈ search dist directory ⟨origin, levels⟩ topN,
      r.1.level ∈ levels) ∧
    (∀ r ∈ search dist directory ⟨origin, [L]⟩ topN, r.1.level = L) ∧
    chooseHospitalLevels none = [1, 2, 3, 4] := by
  have key : ∀ (ls : List Nat), ∀ r ∈ search dist directory ⟨origin, ls⟩ topN,
      r.1.level ∈ ls := by
    intro ls r hr
    rw [search] at hr
    have h1 := List.mem_of_mem_take hr
    rw [List.mem_insertionSort] at h1
    obtain ⟨h, hh, rfl⟩ := List.mem_map.mp h1
    have := (List.mem_filter.mp hh).2
    exact of_decide_eq_true this
  refine ⟨key levels, ?_, rfl⟩
  intro r hr
  have := key [L] r hr
  simpa using this

/-- Witness for C5: over a one-record directory of a level-2 hospital with
the default allowed set, the returned record's level lies in the set. -/
theorem search_filters_by_allowed_levels_witness :
    ((⟨7, "General", 2, 1, 2⟩ : Hospital), (0 : ℚ)).1.level ∈ [1, 2, 3, 4] :=
  (search_filters_by_allowed_levels (fun _ _ => 0) [⟨7, "General", 2, 1, 2⟩]
    (0, 0) [1, 2, 3, 4] 5 2).1 (⟨7, "General", 2, 1, 2⟩, 0) (by decide)

/-- Modelled from the spec: the error taxonomy entry relevant to the search
endpoint (§7) — `EmptyDirectory` is raised when a search is attempted before
any upload. -/
inductive SearchError : Type where
  | emptyDirectory : SearchError
deriving DecidableEq

/-- Modelled from the spec (§4.2 step 5): the search response — the ranked
records together with the signal the caller can use to decide whether to
retry with a widened `allowedLevels` set (set exactly when the filtered set
came up empty). -/
structure SearchResponse : Type where
  hospitals : List (Hospital × ℚ)
  widenRetrySignal : Bool
deriving DecidableEq

/-- Modelled from the spec: the search endpoint guarded by the upload state
(the backend is absent from the sources).  Before any upload there is no
directory snapshot and the search fails with the structured `EmptyDirectory`
error (§7); with a snapshot the pure `search` runs and an empty outcome is
returned as an empty result carrying the widen-retry signal, never an
exception (§4.2 step 5). -/
def searchApi (dist : ℚ × ℚ → ℚ × ℚ → ℚ) (snapshot : Option (List Hospital))
    (q : SearchQuery) (topN : Nat) : Except SearchError SearchResponse :=
  match snapshot with
  | none => .error .emptyDirectory
  | some directory =>
    let rs := search dist directory q topN
    .ok ⟨rs, rs.isEmpty⟩

/-- C6: a search over an empty directory — or one whose level filter matches
no record — returns an empty result with the widen-retry signal set and
raises no exception, while a search attempted before any upload fails with
the structured `EmptyDirectory` error. -/
theorem search_empty_directory_behavior (dist : ℚ × ℚ → ℚ × ℚ → ℚ)
    (q : SearchQuery) (topN : Nat) :
    searchApi dist (some []) q topN = .ok ⟨[], true⟩ ∧
    (∀ directory : List Hospital,
      (∀ h ∈ directory, h.level ∉ q.allowedLevels) →
      searchApi dist (some directory) q topN = .ok ⟨[], true⟩) ∧
    searchApi dist none q topN = .error .emptyDirectory := by
  refine ⟨?_, ?_, rfl⟩
  · simp [searchApi, search]
  · intro directory hnone
    have hfil : directory.filter
        (fun h => h.level ∈ q.allowedLevels) = [] := by
      simp only [List.filter_eq_nil_iff, decide_eq_true_eq]
      exact hnone
    simp [searchApi, search, hfil]

/-- Witness for C6: a one-record level-3 directory searched with allowed set
{1} yields the empty result with the retry signal, without an exception. -/
theorem search_empty_directory_behavior_witness :
    searchApi (fun _ _ => 0) (some [⟨1, "General", 3, 0, 0⟩])
      ⟨(0, 0), [1]⟩ 5 = .ok ⟨[], true⟩ :=
  (search_empty_directory_behavior (fun _ _ => 0) ⟨(0, 0), [1]⟩ 5).2.1
    [⟨1, "General", 3, 0, 0⟩] (by decide)

/-- Modelled from the spec: the haversine great-circle distance of §4.2
step 2 (the backend implementation is absent from the sources), with the
transcendental pieces abstracted over the rationals: `sinSqHalf x` stands
for sin²(x/2) (an even function of its argument), `cosLat` for the cosine of
a latitude, and `wrap h` for 2·6371·asin(√h) applied to the haversine `h`.
Arguments `a` and `b` are (latitude, longitude) pairs; the formula is
`wrap (sinSqHalf Δlat + cos lat₁ · cos lat₂ · sinSqHalf Δlng)`. -/
def haversineWith (sinSqHalf cosLat wrap : ℚ → ℚ) (a b : ℚ × ℚ) : ℚ :=
  wrap (sinSqHalf (b.1 - a.1) + cosLat a.1 * cosLat b.1 * sinSqHalf (b.2 - a.2))

/-- C9: the haversine distance is symmetric: for every pair of coordinates
the two evaluation orders agree exactly — hence certainly within the 1e-6 km
tolerance — because sin²(·/2) is even and the latitude-cosine product
commutes. -/
theorem haversineWith_symm (sinSqHalf cosLat wrap : ℚ → ℚ)
    (heven : ∀ x, sinSqHalf (-x) = sinSqHalf x) (a b : ℚ × ℚ) :
    haversineWith sinSqHalf cosLat wrap a b =
      haversineWith sinSqHalf cosLat wrap b a ∧
    |haversineWith sinSqHalf cosLat wrap a b -
      haversineWith sinSqHalf cosLat wrap b a| ≤ 1 / 1000000 := by
  have h1 : a.1 - b.1 = -(b.1 - a.1) := by ring
  have h2 : a.2 - b.2 = -(b.2 - a.2) := by ring
  have he : haversineWith sinSqHalf cosLat wrap a b =
      haversineWith sinSqHalf cosLat wrap b a := by
    rw [haversineWith, haversineWith, h1, h2, heven, heven,
      mul_comm (cosLat a.1) (cosLat b.1)]
  refine ⟨he, ?_⟩
  rw [he, sub_self, abs_zero]
  norm_num

/-- Witness for C9: symmetry at concrete coordinates with the square
function (an even function) standing in for sin²(·/2). -/
theorem haversineWith_symm_witness :
    haversineWith (fun x => x * x) (fun x => x) (fun x => x)
        ((129 : ℚ) / 10, 776 / 10) ((13 : ℚ), 77) =
      haversineWith (fun x => x * x) (fun x => x) (fun x => x)
        ((13 : ℚ), 77) ((129 : ℚ) / 10, 776 / 10) ∧
    |haversineWith (fun x => x * x) (fun x => x) (fun x => x)
        ((129 : ℚ) / 10, 776 / 10) ((13 : ℚ), 77) -
      haversineWith (fun x => x * x) (fun x => x) (fun x => x)
        ((13 : ℚ), 77) ((129 : ℚ) / 10, 776 / 10)| ≤ 1 / 1000000 :=
  haversineWith_symm (fun x => x * x) (fun x => x) (fun x => x)
    (fun x => by ring) ((129 : ℚ) / 10, 776 / 10) ((13 : ℚ), 77)
